import Mathlib

set_option maxHeartbeats 1000000
set_option linter.unusedVariables false

/-!
Verification development for the extract step of the repository
(`src/utils/reddit_api.py`): token acquisition (`get_access_token`),
post listing (`fetch_posts`) and comment-tree flattening
(`fetch_comments`).  The Python functions are shallowly embedded over a
JSON value type; the network is modelled by handing each function the
HTTP response (status code and parsed JSON body) it would have received,
since each function performs at most one request and the claims quantify
over provider responses.
-/

/-- A parsed JSON value, the type of `response.json()` results and of every
intermediate value the Python code manipulates.  `null` is Python `None`. -/
inductive JVal where
  | null
  | bool (b : Bool)
  | num (n : Int)
  | str (s : String)
  | arr (elems : List JVal)
  | obj (fields : List (String × JVal))
deriving Repr

/-- Python `v == lit` for a JSON value against a string literal: true
exactly when `v` is that string. -/
def JVal.eqStr : JVal → String → Bool
  | .str s, t => s == t
  | _, _ => false

/-- First-match association lookup, the model of Python `dict` key lookup
(JSON objects have unique keys, so first match agrees with `dict` access). -/
def dlookup (fs : List (String × JVal)) (k : String) : Option JVal :=
  match fs with
  | [] => none
  | (k', v) :: rest => if k' = k then some v else dlookup rest k

/-- Python `d.get(k, default)` on a value known to be a dict with
fields `fs`. -/
def dget (fs : List (String × JVal)) (k : String) (d : JVal) : JVal :=
  match dlookup fs k with
  | some v => v
  | none => d

/-- Exceptions that the embedded code can raise internally. -/
inductive PyExc where
  | keyError (msg : String)
  | valueError (msg : String)
  | typeError (msg : String)
  | attributeError (msg : String)
  | requestException (msg : String)
deriving Repr, DecidableEq

/-- Python `str(e)` for an exception: `str` of a `KeyError` is the repr of
its argument (the key wrapped in single quotes); for the others it is the
plain message. -/
def pyStrExc : PyExc → String
  | .keyError m => "\x27" ++ m ++ "\x27"
  | .valueError m => m
  | .typeError m => m
  | .attributeError m => m
  | .requestException m => m

/-- An HTTP response as seen by the embedded functions: status code and
parsed JSON body. -/
structure HttpResp where
  status : Nat
  body : JVal

/-- What a call returns to its caller: a value, a `ValueError`
(the spec's ValidationError / ProtocolError class), a
`requests.exceptions.RequestException` (the spec's TransportError class),
or an exception type none of the `except` clauses catch, which escapes. -/
inductive Outcome (α : Type) where
  | ok (val : α)
  | valueError (msg : String)
  | requestError (msg : String)
  | crash (e : PyExc)

/-- Whether the outcome is a `ValueError` (ValidationError class). -/
def Outcome.isValidationError {α : Type} : Outcome α → Bool
  | .valueError _ => true
  | _ => false

/-- Whether the outcome is a `RequestException` (TransportError class). -/
def Outcome.isTransportError {α : Type} : Outcome α → Bool
  | .requestError _ => true
  | _ => false

/-- `response.raise_for_status()`: raises `requests.exceptions.HTTPError`
(a `RequestException`) exactly for status codes in [400, 600). -/
def raiseForStatus (resp : HttpResp) : Except PyExc Unit :=
  if 400 ≤ resp.status ∧ resp.status < 600 then
    .error (.requestException ("HTTP error for url, status " ++ toString resp.status))
  else
    .ok ()

/-- Python subscript `v[k]` with a string key: dict lookup raising
`KeyError` when absent; any non-dict raises `TypeError` (lists and strings
demand integer indices, the rest are not subscriptable). -/
def pySubscript (v : JVal) (k : String) : Except PyExc JVal :=
  match v with
  | .obj fs =>
    match dlookup fs k with
    | some x => .ok x
    | none => .error (.keyError k)
  | .arr _ => .error (.typeError "list indices must be integers or slices, not str")
  | .str _ => .error (.typeError "string indices must be integers")
  | _ => .error (.typeError "object is not subscriptable")

/-- Does a list-of-chars contain `n` as a prefix? (model of Python
substring search, step 1). -/
def listStarts : List Char → List Char → Bool
  | [], _ => true
  | _ :: _, [] => false
  | a :: as, b :: bs => a == b && listStarts as bs

/-- Does the second list contain the first as a contiguous sublist?
(model of Python `needle in haystack` for strings). -/
def listHasSub (n : List Char) : List Char → Bool
  | [] => n.isEmpty
  | c :: rest => listStarts n (c :: rest) || listHasSub n rest

/-- Python membership `k in v` for a string `k`: key membership for dicts,
element equality for lists (a JSON element equals the string `k` only when
it is that string), substring search for strings, `TypeError` otherwise. -/
def pyContains (k : String) (v : JVal) : Except PyExc Bool :=
  match v with
  | .obj fs => .ok (fs.any (fun p => p.1 == k))
  | .arr xs => .ok (xs.any (fun x => match x with | .str s => s == k | _ => false))
  | .str s => .ok (listHasSub k.toList s.toList)
  | _ => .error (.typeError "argument is not iterable")

/-- Python iteration `for x in v`: lists yield their elements, strings
yield their characters as one-character strings, dicts yield their keys,
everything else raises `TypeError`. -/
def pyIter (v : JVal) : Except PyExc (List JVal) :=
  match v with
  | .arr xs => .ok xs
  | .str s => .ok (s.toList.map (fun c => .str (String.mk [c])))
  | .obj fs => .ok (fs.map (fun p => .str p.1))
  | _ => .error (.typeError "object is not iterable")

/-- The flat comment record built by `extract_comments` (a Python dict with
these eleven fixed keys). -/
structure FlatComment where
  comment_id : JVal
  post_id : String
  parent_comment_id : JVal
  author : JVal
  body : JVal
  score : JVal
  created_utc : JVal
  edited : JVal
  is_submitter : JVal
  stickied : JVal
  level : Nat
deriving Repr

/-- The record literal of `reddit_api.py` lines 189-201: `.get` with no
default yields `None`; `edited`, `is_submitter` and `stickied` default to
`False`. -/
def mkComment (post_id : String) (fields : List (String × JVal)) (parent_id : JVal)
    (level : Nat) : FlatComment :=
  { comment_id := dget fields "id" .null
  , post_id := post_id
  , parent_comment_id := parent_id
  , author := dget fields "author" .null
  , body := dget fields "body" .null
  , score := dget fields "score" .null
  , created_utc := dget fields "created_utc" .null
  , edited := dget fields "edited" (.bool false)
  , is_submitter := dget fields "is_submitter" (.bool false)
  , stickied := dget fields "stickied" (.bool false)
  , level := level }

/-- Message of the `AttributeError` raised by `.get` on a non-dict. -/
def attrGetMsg : String := "object has no attribute get"

mutual
/-- Executable size of a JSON value, the measure for the recursion bound
(the auto-derived `SizeOf` instance of this nested inductive has no
executable code, so a hand-rolled size is used). -/
def jsize : JVal → Nat
  | .null => 1
  | .bool _ => 1
  | .num _ => 1
  | .str _ => 1
  | .arr xs => 1 + jsizeList xs
  | .obj fs => 1 + jsizeFields fs

/-- Size of a list of JSON values. -/
def jsizeList : List JVal → Nat
  | [] => 1
  | x :: xs => 1 + jsize x + jsizeList xs

/-- Size of the field list of a JSON object. -/
def jsizeFields : List (String × JVal) → Nat
  | [] => 1
  | (_, v) :: fs => 1 + jsize v + jsizeFields fs
end

mutual
/-- `extract_comments` (`reddit_api.py` lines 164-222), the recursive
pre-order flattener, indexed by a fuel counter so that the recursion is
structural and computable.  `extract_fuel_irrel` shows the result does not
depend on the fuel once it exceeds twice the size of the node, so the fuel
is an artifact of the embedding, not of the source; the exported
`extract_comments` below fixes a provably sufficient fuel.

For a non-dict node the function returns `[]` (the `isinstance` guard at
lines 185-186).  For a dict node the flat record is emitted first;
`replies` (default `""`) is inspected, and only a dict shape leads to
iterating `replies.get("data", {}).get("children", [])`.  A non-dict
`replies.get("data", {})` makes the second `.get` raise `AttributeError`.
The `children` arms other than a list are the evaluated semantics of
`for child in children` followed by `child.get("kind")`: an empty string
or empty dict runs zero iterations, a non-empty string (whose elements
are characters) or non-empty dict (whose elements are string keys) makes
`child.get` on a string raise `AttributeError`, and the remaining types
are not iterable. -/
def extract_comments_fueled : Nat → String → JVal → JVal → Nat → Except PyExc (List FlatComment)
  | 0, _, _, _, _ => .error (.valueError "recursion limit")
  | fuel + 1, post_id, comment_data, parent_id, level =>
    match comment_data with
    | .obj fields =>
      match dget fields "replies" (.str "") with
      | .obj rfields =>
        match dget rfields "data" (.obj []) with
        | .obj v1fields =>
          match dget v1fields "children" (.arr []) with
          | .arr elems =>
            (extract_children_fueled fuel post_id elems (dget fields "id" .null) (level + 1)).map
              (fun rest => mkComment post_id fields parent_id level :: rest)
          | .str s =>
            if s = "" then .ok [mkComment post_id fields parent_id level]
            else .error (.attributeError attrGetMsg)
          | .obj [] => .ok [mkComment post_id fields parent_id level]
          | .obj (_ :: _) => .error (.attributeError attrGetMsg)
          | _ => .error (.typeError "object is not iterable")
        | _ => .error (.attributeError attrGetMsg)
      | _ => .ok [mkComment post_id fields parent_id level]
    | _ => .ok []

/-- The loop of `extract_comments` over a reply listing (lines 209-220):
a non-dict child makes `child.get("kind")` raise `AttributeError`; a dict
child of kind `"t1"` is flattened recursively on its `data` payload
(default `{}`) and its records extend the output, other kinds are
skipped. -/
def extract_children_fueled : Nat → String → List JVal → JVal → Nat → Except PyExc (List FlatComment)
  | 0, _, _, _, _ => .error (.valueError "recursion limit")
  | fuel + 1, post_id, elems, parent_id, level =>
    match elems with
    | [] => .ok []
    | child :: rest =>
      match child with
      | .obj cfields =>
        if (dget cfields "kind" .null).eqStr "t1" then
          match extract_comments_fueled fuel post_id (dget cfields "data" (.obj [])) parent_id level with
          | .ok sub =>
            match extract_children_fueled fuel post_id rest parent_id level with
            | .ok tail => .ok (sub ++ tail)
            | .error e => .error e
          | .error e => .error e
        else extract_children_fueled fuel post_id rest parent_id level
      | _ => .error (.attributeError attrGetMsg)
end

/-- `extract_comments`, the Python recursive flattener, obtained from the
fueled implementation at a provably sufficient fuel. -/
def extract_comments (post_id : String) (comment_data : JVal) (parent_id : JVal)
    (level : Nat) : Except PyExc (List FlatComment) :=
  extract_comments_fueled (2 * jsize comment_data + 1) post_id comment_data parent_id level

/-- The loop of `extract_comments` over a reply listing, at a sufficient
fuel. -/
def extract_children (post_id : String) (elems : List JVal) (parent_id : JVal)
    (level : Nat) : Except PyExc (List FlatComment) :=
  extract_children_fueled (2 * jsizeList elems + 1 + 1) post_id elems parent_id level

/-- The top-level loop of `fetch_comments` (lines 228-230): for each entry
of the comment listing, `comment["kind"]` (a raising subscript) is compared
with `"t1"`, and matching entries are flattened from `comment["data"]`
with parent `None` and level 0, the results concatenated in listing
order. -/
def process_top (post_id : String) (listing : List JVal) : Except PyExc (List FlatComment) :=
  match listing with
  | [] => .ok []
  | c :: rest =>
    match pySubscript c "kind" with
    | .error e => .error e
    | .ok k =>
      if k.eqStr "t1" then
        match pySubscript c "data" with
        | .error e => .error e
        | .ok d =>
          match extract_comments post_id d .null 0 with
          | .error e => .error e
          | .ok recs =>
            match process_top post_id rest with
            | .error e => .error e
            | .ok tail => .ok (recs ++ tail)
      else process_top post_id rest

/-- Body of the `try` block of `fetch_comments` (lines 145-232) after the
single GET: raise for status, require the body to be a list of length at
least 2 (else `KeyError`), then walk `data[1]["data"]["children"]`. -/
def fetch_comments_try (post_id : String) (resp : HttpResp) : Except PyExc (List FlatComment) :=
  match raiseForStatus resp with
  | .error e => .error e
  | .ok _ =>
    match resp.body with
    | .arr xs =>
      if xs.length < 2 then .error (.keyError "Invalid API response structure")
      else
        match pySubscript (xs.getD 1 .null) "data" with
        | .error e => .error e
        | .ok d1 =>
          match pySubscript d1 "children" with
          | .error e => .error e
          | .ok listing =>
            match pyIter listing with
            | .error e => .error e
            | .ok elems => process_top post_id elems
    | _ => .error (.keyError "Invalid API response structure")

/-- `fetch_comments` (lines 127-239): validation of `post_id` before the
request, then the `try` body, with `RequestException` re-raised,
`KeyError`/`ValueError`/`TypeError` collapsed into a `ValueError`, and
anything else (notably `AttributeError`) escaping uncaught. -/
def fetch_comments (post_id : String) (resp : HttpResp) : Outcome (List FlatComment) :=
  if post_id = "" then .valueError "Post ID must be a non-empty string"
  else
    match fetch_comments_try post_id resp with
    | .ok v => .ok v
    | .error (.requestException m) =>
        .requestError ("Failed to fetch comments for post " ++ post_id ++ ": " ++ m)
    | .error (.keyError m) =>
        .valueError ("Error processing comment data: " ++ pyStrExc (.keyError m))
    | .error (.valueError m) => .valueError ("Error processing comment data: " ++ m)
    | .error (.typeError m) => .valueError ("Error processing comment data: " ++ m)
    | .error e => .crash e

/-- Number of HTTP GET requests `fetch_comments` issues: none when
validation fails, exactly the one at line 153 otherwise.  The traversal
performs no further request: in the embedding `extract_comments` receives
no network capability, matching the source, which contains no request
after line 153. -/
def fetch_comments_requests (post_id : String) : Nat :=
  if post_id = "" then 0 else 1

/-- The accumulation loop of `fetch_posts` (lines 112-115): children with
a `"data"` payload contribute it in order, others are skipped. -/
def processPosts : List JVal → Except PyExc (List JVal)
  | [] => .ok []
  | post :: rest =>
    match pyContains "data" post with
    | .error e => .error e
    | .ok c =>
      if c then
        match pySubscript post "data" with
        | .error e => .error e
        | .ok v =>
          match processPosts rest with
          | .error e => .error e
          | .ok tail => .ok (v :: tail)
      else processPosts rest

/-- The four feed orderings of the `RedditTimeline` enum. -/
inductive RedditTimeline where
  | hot
  | new
  | top
  | rising
deriving Repr

/-- Body of the `try` block of `fetch_posts` (lines 91-117): raise for
status, evaluate `"data" not in data or "children" not in data["data"]`
with Python short-circuiting (raising `KeyError` when it holds), then
loop over `data["data"]["children"]`. -/
def fetch_posts_try (resp : HttpResp) : Except PyExc (List JVal) :=
  match raiseForStatus resp with
  | .error e => .error e
  | .ok _ =>
    match pyContains "data" resp.body with
    | .error e => .error e
    | .ok c1 =>
      if !c1 then .error (.keyError "Invalid API response structure")
      else
        match pySubscript resp.body "data" with
        | .error e => .error e
        | .ok d =>
          match pyContains "children" d with
          | .error e => .error e
          | .ok c2 =>
            if !c2 then .error (.keyError "Invalid API response structure")
            else
              match pySubscript resp.body "data" with
              | .error e => .error e
              | .ok d2 =>
                match pySubscript d2 "children" with
                | .error e => .error e
                | .ok ch =>
                  match pyIter ch with
                  | .error e => .error e
                  | .ok elems => processPosts elems

/-- `fetch_posts` (lines 61-124): `subreddit` and `limit` are validated
before the request; `timeline` only selects the URL path, so it cannot
affect how a given response is processed.  `RequestException` is
re-raised, `KeyError`/`ValueError` are collapsed into a `ValueError`, and
`TypeError` escapes uncaught. -/
def fetch_posts (subreddit : String) (limit : Int) (timeline : RedditTimeline)
    (resp : HttpResp) : Outcome (List JVal) :=
  if subreddit = "" then .valueError "Subreddit name must be a non-empty string"
  else if limit < 1 ∨ limit > 100 then
    .valueError "Limit must be an integer between 1 and 100"
  else
    match fetch_posts_try resp with
    | .ok v => .ok v
    | .error (.requestException m) =>
        .requestError ("Failed to fetch posts from r/" ++ subreddit ++ ": " ++ m)
    | .error (.keyError m) =>
        .valueError ("Error processing response data: " ++ pyStrExc (.keyError m))
    | .error (.valueError m) => .valueError ("Error processing response data: " ++ m)
    | .error e => .crash e

/-- Number of HTTP GET requests `fetch_posts` issues: none when validation
fails, exactly the one at line 100 otherwise (the source contains no other
request). -/
def fetch_posts_requests (subreddit : String) (limit : Int) : Nat :=
  if subreddit = "" then 0
  else if limit < 1 ∨ limit > 100 then 0
  else 1

/-- Body of the `try` block of `get_access_token` (lines 32-51): POST the
credential exchange (the response is supplied), raise for status, check
`"access_token" not in token_data`, and return
`token_data["access_token"]`. -/
def get_access_token_try (resp : HttpResp) : Except PyExc JVal :=
  match raiseForStatus resp with
  | .error e => .error e
  | .ok _ =>
    match pyContains "access_token" resp.body with
    | .error e => .error e
    | .ok c =>
      if !c then .error (.valueError "Access token not found in response")
      else pySubscript resp.body "access_token"

/-- `get_access_token` (lines 17-58): `RequestException` re-raised with a
prefixed message, `ValueError`/`KeyError` collapsed into a `ValueError`,
other exception types escaping. -/
def get_access_token (resp : HttpResp) : Outcome JVal :=
  match get_access_token_try resp with
  | .ok v => .ok v
  | .error (.requestException m) =>
      .requestError ("Failed to get access token: " ++ m)
  | .error (.valueError m) =>
      .valueError ("Invalid response from Reddit API: " ++ m)
  | .error (.keyError m) =>
      .valueError ("Invalid response from Reddit API: " ++ pyStrExc (.keyError m))
  | .error e => .crash e

/-- Is the value a Python dict? -/
def JVal.isObj : JVal → Bool
  | .obj _ => true
  | _ => false

/-- The inner `data` payload of a listing child, when the child is a dict
that has one (`fetch_posts` keeps exactly these, in order). -/
def childData : JVal → Option JVal
  | .obj fs => dlookup fs "data"
  | _ => none

/-- The spec's output invariant: every record's parent reference is either
`p` (the parent id the flattening started from, `None` at the top level)
or the comment id of a record strictly earlier in the output sequence. -/
def parentOk (p : JVal) (out : List FlatComment) : Prop :=
  ∀ pre r rest, out = pre ++ r :: rest →
    r.parent_comment_id = p ∨ ∃ q ∈ pre, q.comment_id = r.parent_comment_id

/-- Fixture: the spec's nested example, a top-level comment `c1` with one
reply `c2` of kind `t1`. -/
def exNode : JVal :=
  .obj [("id", .str "c1"), ("body", .str "hi"),
        ("replies", .obj [("data", .obj [("children", .arr
           [.obj [("kind", .str "t1"), ("data", .obj [("id", .str "c2"), ("body", .str "yo")])]])])])]

/-- Fixture: a comment-listing response whose element 1 carries `exNode`
as its only top-level comment. -/
def exResp : HttpResp :=
  ⟨200, .arr [.null, .obj [("data", .obj [("children", .arr
    [.obj [("kind", .str "t1"), ("data", exNode)]])])]]⟩

/-- Fixture: the record for `c1` in `exResp`. -/
def exRec1 : FlatComment :=
  { comment_id := .str "c1", post_id := "p1", parent_comment_id := .null,
    author := .null, body := .str "hi", score := .null, created_utc := .null,
    edited := .bool false, is_submitter := .bool false, stickied := .bool false,
    level := 0 }

/-- Fixture: the record for `c2` in `exResp`. -/
def exRec2 : FlatComment :=
  { comment_id := .str "c2", post_id := "p1", parent_comment_id := .str "c1",
    author := .null, body := .str "yo", score := .null, created_utc := .null,
    edited := .bool false, is_submitter := .bool false, stickied := .bool false,
    level := 1 }

/-- Fixture: a top-level comment node with no `"id"` field and one reply
`c2`. -/
def noIdNode : JVal :=
  .obj [("author", .str "a1"),
        ("replies", .obj [("data", .obj [("children", .arr
           [.obj [("kind", .str "t1"), ("data", .obj [("id", .str "c2")])]])])])]

/-- Fixture: a comment-listing response carrying `noIdNode` as its only
top-level comment. -/
def noIdResp : HttpResp :=
  ⟨200, .arr [.null, .obj [("data", .obj [("children", .arr
    [.obj [("kind", .str "t1"), ("data", noIdNode)]])])]]⟩

/-- Fixture: the record of the id-less comment in `noIdResp`. -/
def noIdRec1 : FlatComment :=
  { comment_id := .null, post_id := "p9", parent_comment_id := .null,
    author := .str "a1", body := .null, score := .null, created_utc := .null,
    edited := .bool false, is_submitter := .bool false, stickied := .bool false,
    level := 0 }

/-- Fixture: the record of the reply `c2` in `noIdResp`: its parent lacks
an id, so its parent reference is `None` although its level is 1. -/
def noIdRec2 : FlatComment :=
  { comment_id := .str "c2", post_id := "p9", parent_comment_id := .null,
    author := .null, body := .null, score := .null, created_utc := .null,
    edited := .bool false, is_submitter := .bool false, stickied := .bool false,
    level := 1 }

/-- Fixture: a comment-listing response whose top-level listing contains a
malformed (non-dict) entry, the integer 42. -/
def badTopResp : HttpResp :=
  ⟨200, .arr [.null, .obj [("data", .obj [("children", .arr [.num 42])])]]⟩

/-- Fixture: a posts response carrying two children with `data` payloads. -/
def twoPostsResp : HttpResp :=
  ⟨200, .obj [("data", .obj [("children", .arr
    [.obj [("data", .obj [("id", .str "pA")])],
     .obj [("data", .obj [("id", .str "pB")])]])])]⟩

/-! ## Properties of the embedding -/

theorem jsize_pos (v : JVal) : 1 ≤ jsize v := by
  cases v <;> simp only [jsize] <;> omega

theorem jsizeFields_pos (fs : List (String × JVal)) : 1 ≤ jsizeFields fs := by
  cases fs with
  | nil => simp only [jsizeFields]; omega
  | cons p rest => obtain ⟨k, v⟩ := p; simp only [jsizeFields]; omega

theorem jsizeList_pos (xs : List JVal) : 1 ≤ jsizeList xs := by
  cases xs with
  | nil => simp only [jsizeList]; omega
  | cons x rest => simp only [jsizeList]; omega

theorem dlookup_jsize {fs : List (String × JVal)} {k : String} {v : JVal}
    (h : dlookup fs k = some v) : jsize v ≤ jsizeFields fs := by
  induction fs with
  | nil => simp [dlookup] at h
  | cons p rest ih =>
    obtain ⟨k', v'⟩ := p
    rw [dlookup] at h
    by_cases hk : k' = k
    · simp [hk] at h
      subst h
      simp only [jsizeFields]
      omega
    · simp [hk] at h
      have := ih h
      simp only [jsizeFields]
      omega

theorem dget_cases (fs : List (String × JVal)) (k : String) (d : JVal) :
    dget fs k d = d ∨ dlookup fs k = some (dget fs k d) := by
  rw [dget]
  cases h : dlookup fs k with
  | none => exact Or.inl rfl
  | some v => exact Or.inr rfl

/-- Termination of the flattener: a reply listing's children are smaller
than the comment node they came from. -/
theorem dec_replies {fields rfields v1fields : List (String × JVal)} {elems : List JVal}
    (hr : dget fields "replies" (JVal.str "") = JVal.obj rfields)
    (hv : dget rfields "data" (JVal.obj []) = JVal.obj v1fields)
    (hc : dget v1fields "children" (JVal.arr []) = JVal.arr elems) :
    2 * jsizeList elems + 1 < 2 * jsize (JVal.obj fields) := by
  have h1 : jsize (JVal.obj rfields) ≤ jsizeFields fields := by
    rcases dget_cases fields "replies" (JVal.str "") with h | h
    · rw [hr] at h; simp at h
    · rw [hr] at h; exact dlookup_jsize h
  have h2 : jsize (JVal.obj v1fields) ≤ jsize (JVal.obj rfields) := by
    rcases dget_cases rfields "data" (JVal.obj []) with h | h
    · rw [hv] at h; rw [h]
      simp only [jsize, jsizeFields]
      have := jsizeFields_pos rfields
      omega
    · rw [hv] at h
      have := dlookup_jsize h
      simp only [jsize] at this ⊢
      omega
  have h3 : jsize (JVal.arr elems) ≤ jsize (JVal.obj v1fields) := by
    rcases dget_cases v1fields "children" (JVal.arr []) with h | h
    · rw [hc] at h; rw [h]
      simp only [jsize, jsizeList]
      have := jsizeFields_pos v1fields
      omega
    · rw [hc] at h
      have := dlookup_jsize h
      simp only [jsize] at this ⊢
      omega
  simp only [jsize] at h1 h2 h3 ⊢
  omega

/-- Termination of the flattener: a child's `data` payload is smaller than
the listing entry containing it. -/
theorem dec_child (fs : List (String × JVal)) (rest : List JVal) :
    2 * jsize (dget fs "data" (JVal.obj [])) < 2 * jsizeList (JVal.obj fs :: rest) + 1 := by
  have h1 : jsize (dget fs "data" (JVal.obj [])) ≤ jsize (JVal.obj fs) := by
    rcases dget_cases fs "data" (JVal.obj []) with h | h
    · rw [h]
      simp only [jsize, jsizeFields]
      have := jsizeFields_pos fs
      omega
    · have := dlookup_jsize h
      simp only [jsize]
      omega
  have h2 : jsizeList (JVal.obj fs :: rest) = 1 + jsize (JVal.obj fs) + jsizeList rest := by
    simp only [jsizeList]
  have := jsizeList_pos rest
  omega

/-- The fuel is irrelevant once it exceeds twice the size of the input:
any two sufficient fuels give the same result.  Together with the
`dec_replies`/`dec_child` size lemmas this is the termination argument
for the Python recursion. -/
theorem extract_fuel_irrel (n : Nat) :
    (∀ m post_id cd parent_id level, 2 * jsize cd < n → 2 * jsize cd < m →
       extract_comments_fueled n post_id cd parent_id level
         = extract_comments_fueled m post_id cd parent_id level)
    ∧ (∀ m post_id elems parent_id level,
         2 * jsizeList elems + 1 < n → 2 * jsizeList elems + 1 < m →
       extract_children_fueled n post_id elems parent_id level
         = extract_children_fueled m post_id elems parent_id level) := by
  induction n with
  | zero =>
    constructor
    · intro m post_id cd parent_id level hn hm
      exact absurd hn (by omega)
    · intro m post_id elems parent_id level hn hm
      exact absurd hn (by omega)
  | succ n ih =>
    constructor
    · intro m post_id cd parent_id level hn hm
      cases m with
      | zero => exact absurd hm (by omega)
      | succ m =>
        cases cd with
        | obj fields =>
          cases h1 : dget fields "replies" (JVal.str "") with
          | obj rfields =>
            cases h2 : dget rfields "data" (JVal.obj []) with
            | obj v1fields =>
              cases h3 : dget v1fields "children" (JVal.arr []) with
              | arr elems =>
                have hd := dec_replies h1 h2 h3
                simp only [extract_comments_fueled, h1, h2, h3]
                rw [ih.2 m post_id elems (dget fields "id" JVal.null) (level + 1)
                      (by omega) (by omega)]
              | obj ofs =>
                cases ofs <;> simp only [extract_comments_fueled, h1, h2, h3]
              | null => simp only [extract_comments_fueled, h1, h2, h3]
              | bool b => simp only [extract_comments_fueled, h1, h2, h3]
              | num k => simp only [extract_comments_fueled, h1, h2, h3]
              | str s => simp only [extract_comments_fueled, h1, h2, h3]
            | null => simp only [extract_comments_fueled, h1, h2]
            | bool b => simp only [extract_comments_fueled, h1, h2]
            | num k => simp only [extract_comments_fueled, h1, h2]
            | str s => simp only [extract_comments_fueled, h1, h2]
            | arr a => simp only [extract_comments_fueled, h1, h2]
          | null => simp only [extract_comments_fueled, h1]
          | bool b => simp only [extract_comments_fueled, h1]
          | num k => simp only [extract_comments_fueled, h1]
          | str s => simp only [extract_comments_fueled, h1]
          | arr a => simp only [extract_comments_fueled, h1]
        | null => simp only [extract_comments_fueled]
        | bool b => simp only [extract_comments_fueled]
        | num k => simp only [extract_comments_fueled]
        | str s => simp only [extract_comments_fueled]
        | arr a => simp only [extract_comments_fueled]
    · intro m post_id elems parent_id level hn hm
      cases m with
      | zero => exact absurd hm (by omega)
      | succ m =>
        cases elems with
        | nil => simp only [extract_children_fueled]
        | cons child rest =>
          have h5 : jsizeList (child :: rest) = 1 + jsize child + jsizeList rest := by
            simp only [jsizeList]
          have h6 := jsize_pos child
          cases child with
          | obj cfields =>
            by_cases hk : (dget cfields "kind" JVal.null).eqStr "t1" = true
            · have hcd := dec_child cfields rest
              simp only [extract_children_fueled, hk, if_true]
              rw [ih.1 m post_id (dget cfields "data" (JVal.obj [])) parent_id level
                    (by simp only [jsizeList] at hn hcd ⊢; omega)
                    (by simp only [jsizeList] at hm hcd ⊢; omega),
                  ih.2 m post_id rest parent_id level (by omega) (by omega)]
            · simp only [extract_children_fueled, hk, if_false, Bool.false_eq_true]
              exact ih.2 m post_id rest parent_id level (by omega) (by omega)
          | null => simp only [extract_children_fueled]
          | bool b => simp only [extract_children_fueled]
          | num k => simp only [extract_children_fueled]
          | str s => simp only [extract_children_fueled]
          | arr a => simp only [extract_children_fueled]

/-- Any sufficient fuel computes `extract_comments`. -/
theorem extract_comments_fuel (f : Nat) (post_id : String) (cd parent_id : JVal)
    (level : Nat) (h : 2 * jsize cd < f) :
    extract_comments_fueled f post_id cd parent_id level
      = extract_comments post_id cd parent_id level :=
  (extract_fuel_irrel f).1 (2 * jsize cd + 1) post_id cd parent_id level h (by omega)

/-- Any sufficient fuel computes `extract_children`. -/
theorem extract_children_fuel (f : Nat) (post_id : String) (elems : List JVal)
    (parent_id : JVal) (level : Nat) (h : 2 * jsizeList elems + 1 < f) :
    extract_children_fueled f post_id elems parent_id level
      = extract_children post_id elems parent_id level :=
  (extract_fuel_irrel f).2 (2 * jsizeList elems + 1 + 1) post_id elems parent_id level h (by omega)

theorem exceptMap_ok {α β : Type} {f : α → β} {x : Except PyExc α} {y : β}
    (h : x.map f = .ok y) : ∃ a, x = .ok a ∧ y = f a := by
  cases x with
  | ok a => exact ⟨a, rfl, by simpa [Except.map] using h.symm⟩
  | error e => simp [Except.map] at h

theorem parentOk_nil (p : JVal) : parentOk p [] := by
  intro pre r rest h
  rcases pre with _ | ⟨q, pre'⟩ <;> simp at h

theorem parentOk_cons {p : JVal} {c : FlatComment} {rest : List FlatComment}
    (hc : c.parent_comment_id = p) (hr : parentOk c.comment_id rest) :
    parentOk p (c :: rest) := by
  intro pre r rest' h
  cases pre with
  | nil =>
    simp at h
    exact Or.inl (h.1 ▸ hc)
  | cons q pre' =>
    simp at h
    obtain ⟨hq, hrest⟩ := h
    rcases hr pre' r rest' hrest with h' | ⟨q', hq', he⟩
    · exact Or.inr ⟨c, by simp [hq], h'.symm⟩
    · exact Or.inr ⟨q', by simp [hq'], he⟩

theorem parentOk_append {p : JVal} {a b : List FlatComment}
    (ha : parentOk p a) (hb : parentOk p b) : parentOk p (a ++ b) := by
  intro pre r rest h
  rcases List.append_eq_append_iff.1 h with ⟨a', h1, h2⟩ | ⟨c', h1, h2⟩
  · rcases hb a' r rest h2 with h' | ⟨q, hq, he⟩
    · exact Or.inl h'
    · exact Or.inr ⟨q, by rw [h1]; exact List.mem_append_right _ hq, he⟩
  · cases c' with
    | nil =>
      simp at h1 h2
      rcases hb [] r rest h2.symm with h' | ⟨q, hq, he⟩
      · exact Or.inl h'
      · simp at hq
    | cons x c'' =>
      simp at h2
      obtain ⟨hx, hrest⟩ := h2
      subst hx
      rcases ha pre r c'' h1 with h' | ⟨q, hq, he⟩
      · exact Or.inl h'
      · exact Or.inr ⟨q, hq, he⟩

/-- Joint invariant of the flattener, by induction on the fuel: on success
every record's parent reference is the caller-supplied parent or the
comment id of an earlier record, and every record carries the call's
post id. -/
theorem extractC_invariants (n : Nat) :
    (∀ post_id cd parent_id level out,
       extract_comments_fueled n post_id cd parent_id level = .ok out →
       parentOk parent_id out ∧ ∀ r, r ∈ out → r.post_id = post_id)
    ∧ (∀ post_id elems parent_id level out,
       extract_children_fueled n post_id elems parent_id level = .ok out →
       parentOk parent_id out ∧ ∀ r, r ∈ out → r.post_id = post_id) := by
  induction n with
  | zero =>
    constructor
    · intro post_id cd parent_id level out h
      simp only [extract_comments_fueled] at h
      exact Except.noConfusion h
    · intro post_id elems parent_id level out h
      simp only [extract_children_fueled] at h
      exact Except.noConfusion h
  | succ n ih =>
    have hsingle : ∀ post_id fields parent_id level,
        parentOk parent_id [mkComment post_id fields parent_id level] ∧
        ∀ r, r ∈ [mkComment post_id fields parent_id level] → r.post_id = post_id := by
      intro post_id fields parent_id level
      refine ⟨parentOk_cons rfl (parentOk_nil _), ?_⟩
      intro r hr
      simp at hr
      rw [hr]
      rfl
    constructor
    · intro post_id cd parent_id level out h
      cases cd with
      | obj fields =>
        cases h1 : dget fields "replies" (JVal.str "") with
        | obj rfields =>
          cases h2 : dget rfields "data" (JVal.obj []) with
          | obj v1fields =>
            cases h3 : dget v1fields "children" (JVal.arr []) with
            | arr elems =>
              simp only [extract_comments_fueled, h1, h2, h3] at h
              obtain ⟨rest, hrest, hout⟩ := exceptMap_ok h
              subst hout
              obtain ⟨hp, hpost⟩ :=
                ih.2 post_id elems (dget fields "id" JVal.null) (level + 1) rest hrest
              refine ⟨parentOk_cons rfl hp, ?_⟩
              intro r hr
              rcases List.mem_cons.1 hr with h' | h'
              · rw [h']; rfl
              · exact hpost r h'
            | obj ofs =>
              cases ofs with
              | nil =>
                simp only [extract_comments_fueled, h1, h2, h3, Except.ok.injEq] at h
                subst h
                exact hsingle post_id fields parent_id level
              | cons o os =>
                simp only [extract_comments_fueled, h1, h2, h3] at h
                exact Except.noConfusion h
            | null =>
              simp only [extract_comments_fueled, h1, h2, h3] at h
              exact Except.noConfusion h
            | bool b =>
              simp only [extract_comments_fueled, h1, h2, h3] at h
              exact Except.noConfusion h
            | num k =>
              simp only [extract_comments_fueled, h1, h2, h3] at h
              exact Except.noConfusion h
            | str s =>
              simp only [extract_comments_fueled, h1, h2, h3] at h
              by_cases hs : s = ""
              · rw [if_pos hs] at h
                simp only [Except.ok.injEq] at h
                subst h
                exact hsingle post_id fields parent_id level
              · rw [if_neg hs] at h
                exact Except.noConfusion h
          | null =>
            simp only [extract_comments_fueled, h1, h2] at h
            exact Except.noConfusion h
          | bool b =>
            simp only [extract_comments_fueled, h1, h2] at h
            exact Except.noConfusion h
          | num k =>
            simp only [extract_comments_fueled, h1, h2] at h
            exact Except.noConfusion h
          | str s =>
            simp only [extract_comments_fueled, h1, h2] at h
            exact Except.noConfusion h
          | arr a =>
            simp only [extract_comments_fueled, h1, h2] at h
            exact Except.noConfusion h
        | null =>
          simp only [extract_comments_fueled, h1, Except.ok.injEq] at h
          subst h; exact hsingle post_id fields parent_id level
        | bool b =>
          simp only [extract_comments_fueled, h1, Except.ok.injEq] at h
          subst h; exact hsingle post_id fields parent_id level
        | num k =>
          simp only [extract_comments_fueled, h1, Except.ok.injEq] at h
          subst h; exact hsingle post_id fields parent_id level
        | str s =>
          simp only [extract_comments_fueled, h1, Except.ok.injEq] at h
          subst h; exact hsingle post_id fields parent_id level
        | arr a =>
          simp only [extract_comments_fueled, h1, Except.ok.injEq] at h
          subst h; exact hsingle post_id fields parent_id level
      | null =>
        simp only [extract_comments_fueled, Except.ok.injEq] at h
        subst h; exact ⟨parentOk_nil _, by simp⟩
      | bool b =>
        simp only [extract_comments_fueled, Except.ok.injEq] at h
        subst h; exact ⟨parentOk_nil _, by simp⟩
      | num k =>
        simp only [extract_comments_fueled, Except.ok.injEq] at h
        subst h; exact ⟨parentOk_nil _, by simp⟩
      | str s =>
        simp only [extract_comments_fueled, Except.ok.injEq] at h
        subst h; exact ⟨parentOk_nil _, by simp⟩
      | arr a =>
        simp only [extract_comments_fueled, Except.ok.injEq] at h
        subst h; exact ⟨parentOk_nil _, by simp⟩
    · intro post_id elems parent_id level out h
      cases elems with
      | nil =>
        simp only [extract_children_fueled, Except.ok.injEq] at h
        subst h; exact ⟨parentOk_nil _, by simp⟩
      | cons child rest =>
        cases child with
        | obj cfields =>
          simp only [extract_children_fueled] at h
          by_cases hk : (dget cfields "kind" JVal.null).eqStr "t1" = true
          · rw [if_pos hk] at h
            cases hs : extract_comments_fueled n post_id
                (dget cfields "data" (JVal.obj [])) parent_id level with
            | error e => rw [hs] at h; simp at h
            | ok sub =>
              rw [hs] at h
              cases ht : extract_children_fueled n post_id rest parent_id level with
              | error e => rw [ht] at h; simp at h
              | ok tail =>
                rw [ht] at h
                simp only [Except.ok.injEq] at h
                subst h
                obtain ⟨hp1, hq1⟩ := ih.1 post_id _ parent_id level sub hs
                obtain ⟨hp2, hq2⟩ := ih.2 post_id rest parent_id level tail ht
                refine ⟨parentOk_append hp1 hp2, ?_⟩
                intro r hr
                rcases List.mem_append.1 hr with h' | h'
                · exact hq1 r h'
                · exact hq2 r h'
          · rw [if_neg hk] at h
            exact ih.2 post_id rest parent_id level out h
        | null =>
          simp only [extract_children_fueled] at h
          exact Except.noConfusion h
        | bool b =>
          simp only [extract_children_fueled] at h
          exact Except.noConfusion h
        | num k =>
          simp only [extract_children_fueled] at h
          exact Except.noConfusion h
        | str s =>
          simp only [extract_children_fueled] at h
          exact Except.noConfusion h
        | arr a =>
          simp only [extract_children_fueled] at h
          exact Except.noConfusion h

/-- The invariant at the exported entry point of the flattener. -/
theorem extract_comments_invariants (post_id : String) (cd parent_id : JVal) (level : Nat)
    (out : List FlatComment) (h : extract_comments post_id cd parent_id level = .ok out) :
    parentOk parent_id out ∧ ∀ r, r ∈ out → r.post_id = post_id :=
  (extractC_invariants (2 * jsize cd + 1)).1 post_id cd parent_id level out h

/-- The invariant after the top-level loop: parents resolve within the
output, starting from parent `None`. -/
theorem process_top_invariants (post_id : String) (listing : List JVal)
    (out : List FlatComment) (h : process_top post_id listing = .ok out) :
    parentOk JVal.null out ∧ ∀ r, r ∈ out → r.post_id = post_id := by
  induction listing generalizing out with
  | nil =>
    simp only [process_top, Except.ok.injEq] at h
    subst h
    exact ⟨parentOk_nil _, by simp⟩
  | cons c rest ih =>
    simp only [process_top] at h
    cases hk : pySubscript c "kind" with
    | error e => simp only [hk] at h; exact Except.noConfusion h
    | ok k =>
      simp only [hk] at h
      by_cases hkt : k.eqStr "t1" = true
      · rw [if_pos hkt] at h
        cases hd : pySubscript c "data" with
        | error e => simp only [hd] at h; exact Except.noConfusion h
        | ok d =>
          simp only [hd] at h
          cases he : extract_comments post_id d .null 0 with
          | error e => simp only [he] at h; exact Except.noConfusion h
          | ok recs =>
            simp only [he] at h
            cases hp : process_top post_id rest with
            | error e => simp only [hp] at h; exact Except.noConfusion h
            | ok tail =>
              simp only [hp] at h
              simp only [Except.ok.injEq] at h
              subst h
              obtain ⟨hp1, hq1⟩ := extract_comments_invariants post_id d .null 0 recs he
              obtain ⟨hp2, hq2⟩ := ih tail hp
              refine ⟨parentOk_append hp1 hp2, ?_⟩
              intro r hr
              rcases List.mem_append.1 hr with h' | h'
              · exact hq1 r h'
              · exact hq2 r h'
      · rw [if_neg hkt] at h
        exact ih out h

/-- A successful `fetch_comments` comes from a successful run of the
top-level loop on the children of element 1 of the response body. -/
theorem fetch_comments_ok_inv (post_id : String) (resp : HttpResp)
    (out : List FlatComment) (h : fetch_comments post_id resp = .ok out) :
    ∃ elems, process_top post_id elems = .ok out := by
  simp only [fetch_comments] at h
  by_cases hpe : post_id = ""
  · rw [if_pos hpe] at h; exact Outcome.noConfusion h
  · rw [if_neg hpe] at h
    cases htry : fetch_comments_try post_id resp with
    | error e =>
      simp only [htry] at h
      cases e <;> exact Outcome.noConfusion h
    | ok v =>
      simp only [htry] at h
      simp only [Outcome.ok.injEq] at h
      subst h
      simp only [fetch_comments_try] at htry
      cases hrs : raiseForStatus resp with
      | error e => simp only [hrs] at htry; exact Except.noConfusion htry
      | ok u =>
        simp only [hrs] at htry
        cases hb : resp.body with
        | arr xs =>
          simp only [hb] at htry
          by_cases hlen : xs.length < 2
          · rw [if_pos hlen] at htry; exact Except.noConfusion htry
          · rw [if_neg hlen] at htry
            cases hs1 : pySubscript (xs.getD 1 JVal.null) "data" with
            | error e => simp only [hs1] at htry; exact Except.noConfusion htry
            | ok d1 =>
              simp only [hs1] at htry
              cases hs2 : pySubscript d1 "children" with
              | error e => simp only [hs2] at htry; exact Except.noConfusion htry
              | ok listing =>
                simp only [hs2] at htry
                cases hit : pyIter listing with
                | error e => simp only [hit] at htry; exact Except.noConfusion htry
                | ok elems =>
                  simp only [hit] at htry
                  exact ⟨elems, htry⟩
        | null => simp only [hb] at htry; exact Except.noConfusion htry
        | bool b => simp only [hb] at htry; exact Except.noConfusion htry
        | num k => simp only [hb] at htry; exact Except.noConfusion htry
        | str s => simp only [hb] at htry; exact Except.noConfusion htry
        | obj fs => simp only [hb] at htry; exact Except.noConfusion htry

/-- A key found by `dlookup` makes `List.any` on that key true. -/
theorem dlookup_any {fs : List (String × JVal)} {k : String} {v : JVal}
    (h : dlookup fs k = some v) : (fs.any fun p => p.1 == k) = true := by
  induction fs with
  | nil => simp [dlookup] at h
  | cons p rest ih =>
    obtain ⟨k', v'⟩ := p
    rw [dlookup] at h
    by_cases hk : k' = k
    · simp [hk]
    · simp only [hk, if_false] at h
      simp [ih h]

/-- A key missed by `dlookup` makes `List.any` on that key false. -/
theorem dlookup_none_any {fs : List (String × JVal)} {k : String}
    (h : dlookup fs k = none) : (fs.any fun p => p.1 == k) = false := by
  induction fs with
  | nil => simp
  | cons p rest ih =>
    obtain ⟨k', v'⟩ := p
    rw [dlookup] at h
    by_cases hk : k' = k
    · simp [hk] at h
    · simp only [hk, if_false] at h
      simp [ih h, hk]

/-- The loop of `fetch_posts` never lengthens the child list: on success
it returns at most one payload per child. -/
theorem processPosts_length (xs : List JVal) (ps : List JVal)
    (h : processPosts xs = .ok ps) : ps.length ≤ xs.length := by
  induction xs generalizing ps with
  | nil =>
    simp only [processPosts, Except.ok.injEq] at h
    subst h; simp
  | cons x rest ih =>
    simp only [processPosts] at h
    cases hc : pyContains "data" x with
    | error e => simp only [hc] at h; exact Except.noConfusion h
    | ok c =>
      simp only [hc] at h
      by_cases hcv : c = true
      · rw [if_pos hcv] at h
        cases hs : pySubscript x "data" with
        | error e => simp only [hs] at h; exact Except.noConfusion h
        | ok v =>
          simp only [hs] at h
          cases ht : processPosts rest with
          | error e => simp only [ht] at h; exact Except.noConfusion h
          | ok tail =>
            simp only [ht] at h
            simp only [Except.ok.injEq] at h
            subst h
            have := ih tail ht
            simp
            omega
      · rw [if_neg hcv] at h
        have := ih ps h
        simp
        omega

/-- On an all-dict child list, the loop of `fetch_posts` returns exactly
the `data` payloads of the children that have one, in order. -/
theorem processPosts_obj (xs : List JVal) (hobj : ∀ x, x ∈ xs → x.isObj = true) :
    processPosts xs = .ok (xs.filterMap childData) := by
  induction xs with
  | nil => simp [processPosts]
  | cons x rest ih =>
    have hx := hobj x (by simp)
    cases x with
    | obj fs =>
      simp only [processPosts, pyContains]
      cases hl : dlookup fs "data" with
      | some v =>
        simp [dlookup_any hl, pySubscript, hl,
          ih (fun y hy => hobj y (by simp [hy])), childData]
      | none =>
        simp [dlookup_none_any hl, pySubscript, hl,
          ih (fun y hy => hobj y (by simp [hy])), childData]
    | null => simp [JVal.isObj] at hx
    | bool b => simp [JVal.isObj] at hx
    | num k => simp [JVal.isObj] at hx
    | str s => simp [JVal.isObj] at hx
    | arr a => simp [JVal.isObj] at hx

/-- Whatever the (positive) fuel, a successful flattening of a dict node
emits that node's record first. -/
theorem extractC_obj_head (n : Nat) (post_id : String) (fields : List (String × JVal))
    (parent_id : JVal) (level : Nat) (out : List FlatComment)
    (h : extract_comments_fueled (n + 1) post_id (JVal.obj fields) parent_id level = .ok out) :
    ∃ rest, out = mkComment post_id fields parent_id level :: rest := by
  cases h1 : dget fields "replies" (JVal.str "") with
  | obj rfields =>
    cases h2 : dget rfields "data" (JVal.obj []) with
    | obj v1fields =>
      cases h3 : dget v1fields "children" (JVal.arr []) with
      | arr elems =>
        simp only [extract_comments_fueled, h1, h2, h3] at h
        obtain ⟨rest, hrest, hout⟩ := exceptMap_ok h
        exact ⟨rest, hout⟩
      | obj ofs =>
        cases ofs with
        | nil =>
          simp only [extract_comments_fueled, h1, h2, h3, Except.ok.injEq] at h
          exact ⟨[], h.symm⟩
        | cons o os =>
          simp only [extract_comments_fueled, h1, h2, h3] at h
          exact Except.noConfusion h
      | null =>
        simp only [extract_comments_fueled, h1, h2, h3] at h
        exact Except.noConfusion h
      | bool b =>
        simp only [extract_comments_fueled, h1, h2, h3] at h
        exact Except.noConfusion h
      | num k =>
        simp only [extract_comments_fueled, h1, h2, h3] at h
        exact Except.noConfusion h
      | str s =>
        simp only [extract_comments_fueled, h1, h2, h3] at h
        by_cases hs : s = ""
        · rw [if_pos hs] at h
          simp only [Except.ok.injEq] at h
          exact ⟨[], h.symm⟩
        · rw [if_neg hs] at h
          exact Except.noConfusion h
    | null =>
      simp only [extract_comments_fueled, h1, h2] at h
      exact Except.noConfusion h
    | bool b =>
      simp only [extract_comments_fueled, h1, h2] at h
      exact Except.noConfusion h
    | num k =>
      simp only [extract_comments_fueled, h1, h2] at h
      exact Except.noConfusion h
    | str s =>
      simp only [extract_comments_fueled, h1, h2] at h
      exact Except.noConfusion h
    | arr a =>
      simp only [extract_comments_fueled, h1, h2] at h
      exact Except.noConfusion h
  | null =>
    simp only [extract_comments_fueled, h1, Except.ok.injEq] at h
    exact ⟨[], h.symm⟩
  | bool b =>
    simp only [extract_comments_fueled, h1, Except.ok.injEq] at h
    exact ⟨[], h.symm⟩
  | num k =>
    simp only [extract_comments_fueled, h1, Except.ok.injEq] at h
    exact ⟨[], h.symm⟩
  | str s =>
    simp only [extract_comments_fueled, h1, Except.ok.injEq] at h
    exact ⟨[], h.symm⟩
  | arr a =>
    simp only [extract_comments_fueled, h1, Except.ok.injEq] at h
    exact ⟨[], h.symm⟩

/-- A successful flattening of a dict node emits that node's record
first. -/
theorem extract_comments_obj_head (post_id : String) (fields : List (String × JVal))
    (parent_id : JVal) (level : Nat) (out : List FlatComment)
    (h : extract_comments post_id (JVal.obj fields) parent_id level = .ok out) :
    ∃ rest, out = mkComment post_id fields parent_id level :: rest :=
  extractC_obj_head (2 * jsize (JVal.obj fields)) post_id fields parent_id level out h

/-- A node that is not a dict is skipped: it contributes no records and
raises nothing (`reddit_api.py` lines 185-186). -/
theorem extract_comments_nonobj (post_id : String) (cd parent_id : JVal) (level : Nat)
    (h : cd.isObj = false) :
    extract_comments post_id cd parent_id level = .ok [] := by
  cases cd with
  | obj fs => simp [JVal.isObj] at h
  | null => simp only [extract_comments, extract_comments_fueled]
  | bool b => simp only [extract_comments, extract_comments_fueled]
  | num k => simp only [extract_comments, extract_comments_fueled]
  | str s => simp only [extract_comments, extract_comments_fueled]
  | arr a => simp only [extract_comments, extract_comments_fueled]

/-- A reply entry whose kind is not `"t1"` contributes nothing: one step
of the loop with such an entry is the loop on the remaining entries. -/
theorem extractCh_skip (n : Nat) (post_id : String) (cf : List (String × JVal))
    (rest : List JVal) (parent_id : JVal) (level : Nat)
    (hk : (dget cf "kind" JVal.null).eqStr "t1" = false) :
    extract_children_fueled (n + 1) post_id (JVal.obj cf :: rest) parent_id level
      = extract_children_fueled n post_id rest parent_id level := by
  simp only [extract_children_fueled]
  rw [if_neg (by simp [hk])]

/-- A reply entry whose kind is not `"t1"` contributes nothing: the loop
continues on the remaining entries unchanged. -/
theorem extract_children_skip (post_id : String) (cf : List (String × JVal))
    (rest : List JVal) (parent_id : JVal) (level : Nat)
    (hk : (dget cf "kind" JVal.null).eqStr "t1" = false) :
    extract_children post_id (JVal.obj cf :: rest) parent_id level
      = extract_children post_id rest parent_id level := by
  have h5 : jsizeList (JVal.obj cf :: rest) = 1 + jsize (JVal.obj cf) + jsizeList rest := by
    simp only [jsizeList]
  have h6 := jsize_pos (JVal.obj cf)
  calc extract_children post_id (JVal.obj cf :: rest) parent_id level
      = extract_children_fueled (2 * jsizeList (JVal.obj cf :: rest) + 1 + 1) post_id
          (JVal.obj cf :: rest) parent_id level := rfl
    _ = extract_children_fueled (2 * jsizeList (JVal.obj cf :: rest) + 1) post_id
          rest parent_id level :=
        extractCh_skip _ post_id cf rest parent_id level hk
    _ = extract_children post_id rest parent_id level :=
        extract_children_fuel _ post_id rest parent_id level (by omega)

/-- On a dict node whose replies listing is exposed, the flattening is the
record followed by the recursive flattening of the children at the node's
own comment id and the next depth, in provider order. -/
theorem extract_comments_obj_unfold (post_id : String)
    (fields rfields v1fields : List (String × JVal)) (elems : List JVal)
    (parent_id : JVal) (level : Nat)
    (h1 : dget fields "replies" (JVal.str "") = JVal.obj rfields)
    (h2 : dget rfields "data" (JVal.obj []) = JVal.obj v1fields)
    (h3 : dget v1fields "children" (JVal.arr []) = JVal.arr elems) :
    extract_comments post_id (JVal.obj fields) parent_id level
      = (extract_children post_id elems (dget fields "id" JVal.null) (level + 1)).map
          (fun rest => mkComment post_id fields parent_id level :: rest) := by
  have hb : 2 * jsizeList elems + 1 < 2 * jsize (JVal.obj fields) := dec_replies h1 h2 h3
  simp only [extract_comments, extract_comments_fueled, h1, h2, h3]
  rw [extract_children_fuel _ _ _ _ _ hb]

/-- Under a passing status и the expected shape, the `try` body of
`fetch_posts` reduces to its accumulation loop over the children. -/
theorem fetch_posts_try_shape (resp : HttpResp) (bf df : List (String × JVal))
    (xs : List JVal) (hst : ¬(400 ≤ resp.status ∧ resp.status < 600))
    (hb : resp.body = .obj bf) (hd : dlookup bf "data" = some (.obj df))
    (hc : dlookup df "children" = some (.arr xs)) :
    fetch_posts_try resp = processPosts xs := by
  have hcond := hst
  simp [fetch_posts_try, raiseForStatus, hcond, hb, pyContains,
    dlookup_any hd, dlookup_any hc, pySubscript, hd, hc, pyIter]

/-- Absent top-level `data`, the `try` body of `fetch_posts` raises the
shape `KeyError`. -/
theorem fetch_posts_try_noData (resp : HttpResp) (bf : List (String × JVal))
    (hst : ¬(400 ≤ resp.status ∧ resp.status < 600)) (hb : resp.body = .obj bf)
    (hd : dlookup bf "data" = none) :
    fetch_posts_try resp = .error (.keyError "Invalid API response structure") := by
  have hcond := hst
  simp [fetch_posts_try, raiseForStatus, hcond, hb, pyContains, dlookup_none_any hd]

/-- Absent `children` inside a dict `data`, the `try` body of
`fetch_posts` raises the shape `KeyError`. -/
theorem fetch_posts_try_noChildren (resp : HttpResp) (bf df : List (String × JVal))
    (hst : ¬(400 ≤ resp.status ∧ resp.status < 600)) (hb : resp.body = .obj bf)
    (hd : dlookup bf "data" = some (.obj df)) (hc : dlookup df "children" = none) :
    fetch_posts_try resp = .error (.keyError "Invalid API response structure") := by
  have hcond := hst
  simp [fetch_posts_try, raiseForStatus, hcond, hb, pyContains,
    dlookup_any hd, pySubscript, hd, dlookup_none_any hc]

/-- A successful `fetch_posts` passed validation and returns exactly what
its `try` body returned. -/
theorem fetch_posts_ok_inv (sub : String) (lim : Int) (tl : RedditTimeline)
    (resp : HttpResp) (posts : List JVal) (h : fetch_posts sub lim tl resp = .ok posts) :
    fetch_posts_try resp = .ok posts := by
  simp only [fetch_posts] at h
  by_cases hs : sub = ""
  · rw [if_pos hs] at h; exact Outcome.noConfusion h
  · rw [if_neg hs] at h
    by_cases hl : lim < 1 ∨ lim > 100
    · rw [if_pos hl] at h; exact Outcome.noConfusion h
    · rw [if_neg hl] at h
      cases htry : fetch_posts_try resp with
      | error e =>
        simp only [htry] at h
        cases e <;> exact Outcome.noConfusion h
      | ok v =>
        simp only [htry, Outcome.ok.injEq] at h
        rw [h]

/-- Concrete run of the flattener on the nested `c1`/`c2` node. -/
theorem extract_comments_exNode :
    extract_comments "p1" exNode .null 0 = .ok [exRec1, exRec2] := by
  rw [← extract_comments_fuel 100 "p1" exNode JVal.null 0
        (by simp only [exNode, jsize, jsizeList, jsizeFields]; omega)]
  rfl

/-- Concrete run of `fetch_comments` on the nested `c1`/`c2` response:
exactly the two records, in pre-order. -/
theorem fetch_comments_exResp : fetch_comments "p1" exResp = .ok [exRec1, exRec2] := by
  have hE := extract_comments_exNode
  simp [fetch_comments, fetch_comments_try, process_top, exResp, exNode, raiseForStatus,
    pySubscript, pyIter, dget, dlookup, List.getD, JVal.eqStr, hE] at hE ⊢

/-- Concrete run of the flattener on the id-less node. -/
theorem extract_comments_noIdNode :
    extract_comments "p9" noIdNode .null 0 = .ok [noIdRec1, noIdRec2] := by
  rw [← extract_comments_fuel 100 "p9" noIdNode JVal.null 0
        (by simp only [noIdNode, jsize, jsizeList, jsizeFields]; omega)]
  rfl

/-- Concrete run of `fetch_comments` on the id-less response. -/
theorem fetch_comments_noIdResp :
    fetch_comments "p9" noIdResp = .ok [noIdRec1, noIdRec2] := by
  have hE := extract_comments_noIdNode
  simp [fetch_comments, fetch_comments_try, process_top, noIdResp, noIdNode, raiseForStatus,
    pySubscript, pyIter, dget, dlookup, List.getD, JVal.eqStr, hE] at hE ⊢

/-- Concrete run of `fetch_posts` on the two-children response, for any
valid limit. -/
theorem fetch_posts_twoPosts (lim : Int) (h1 : 1 ≤ lim) (h2 : lim ≤ 100) :
    fetch_posts "a" lim .hot twoPostsResp
      = .ok [JVal.obj [("id", JVal.str "pA")], JVal.obj [("id", JVal.str "pB")]] := by
  have hs : ¬("a" = "") := by simp
  have hl : ¬(lim < 1 ∨ lim > 100) := by omega
  simp only [fetch_posts, if_neg hs, if_neg hl]
  simp [fetch_posts_try, processPosts, twoPostsResp, raiseForStatus,
    pyContains, pySubscript, pyIter, dlookup]

/-! ## Claims -/

/-- C1: for every response successfully processed by `fetch_comments`,
every FlatComment record carries the call's post id, and its
`parent_comment_id` is either null (root) or equal to the `comment_id` of
a record appearing strictly earlier in the output sequence — the
invariant of the pre-order flattening, under which every node's record
precedes its descendants' records. -/
theorem C1_preorder_parent_invariant (post_id : String) (resp : HttpResp)
    (out : List FlatComment) (h : fetch_comments post_id resp = .ok out) :
    (∀ r, r ∈ out → r.post_id = post_id) ∧
    ∀ pre r rest, out = pre ++ r :: rest →
      r.parent_comment_id = JVal.null ∨ ∃ q ∈ pre, q.comment_id = r.parent_comment_id := by
  obtain ⟨elems, he⟩ := fetch_comments_ok_inv post_id resp out h
  obtain ⟨hp, hq⟩ := process_top_invariants post_id elems out he
  exact ⟨hq, hp⟩

/-- Witness for C1 at the nested `c1`/`c2` response: the record of `c2`
resolves its parent among the earlier records. -/
theorem C1_witness :
    exRec2.parent_comment_id = JVal.null ∨
      ∃ q ∈ [exRec1], q.comment_id = exRec2.parent_comment_id :=
  (C1_preorder_parent_invariant "p1" exResp [exRec1, exRec2] fetch_comments_exResp).2
    [exRec1] exRec2 [] rfl

/-- C2: the record flattened from a dict node has `post_id` fixed to the
call's post id, `parent_comment_id` the caller-supplied parent, `level`
the caller-supplied depth, `comment_id` the node's `id` (null when
absent), and `edited`/`is_submitter`/`stickied` defaulting to false when
absent; each reply child of comment kind is flattened recursively with
parent set to this node's comment id and level set to this level plus
one, appended in provider order; and the concrete `c1`/`c2` case yields
exactly `[c1 (level 0, parent null), c2 (level 1, parent "c1")]`. -/
theorem C2_record_construction :
    (∀ post_id fields parent_id level out,
       extract_comments post_id (JVal.obj fields) parent_id level = .ok out →
       ∃ r rest, out = r :: rest ∧ r.post_id = post_id ∧
         r.parent_comment_id = parent_id ∧ r.level = level ∧
         r.comment_id = dget fields "id" JVal.null ∧
         (dlookup fields "edited" = none → r.edited = .bool false) ∧
         (dlookup fields "is_submitter" = none → r.is_submitter = .bool false) ∧
         (dlookup fields "stickied" = none → r.stickied = .bool false)) ∧
    (∀ post_id fields rfields v1fields elems parent_id level,
       dget fields "replies" (JVal.str "") = JVal.obj rfields →
       dget rfields "data" (JVal.obj []) = JVal.obj v1fields →
       dget v1fields "children" (JVal.arr []) = JVal.arr elems →
       extract_comments post_id (JVal.obj fields) parent_id level
         = (extract_children post_id elems (dget fields "id" JVal.null) (level + 1)).map
             (fun rest => mkComment post_id fields parent_id level :: rest)) ∧
    fetch_comments "p1" exResp = .ok [exRec1, exRec2] := by
  refine ⟨?_, ?_, fetch_comments_exResp⟩
  · intro post_id fields parent_id level out h
    obtain ⟨rest, hout⟩ := extract_comments_obj_head post_id fields parent_id level out h
    refine ⟨mkComment post_id fields parent_id level, rest, hout,
      rfl, rfl, rfl, rfl, ?_, ?_, ?_⟩
    · intro hn; simp [mkComment, dget, hn]
    · intro hn; simp [mkComment, dget, hn]
    · intro hn; simp [mkComment, dget, hn]
  · intro post_id fields rfields v1fields elems parent_id level h1 h2 h3
    exact extract_comments_obj_unfold post_id fields rfields v1fields elems
      parent_id level h1 h2 h3

/-- Witness for C2: the head-record shape at a one-field node, and the
recursive unfolding at the nested `c1` node. -/
theorem C2_witness :
    (∃ r rest,
       [mkComment "p" [("id", JVal.str "x")] JVal.null 0] = r :: rest ∧
       r.post_id = "p" ∧ r.parent_comment_id = JVal.null ∧ r.level = 0 ∧
       r.comment_id = dget [("id", JVal.str "x")] "id" JVal.null ∧
       (dlookup [("id", JVal.str "x")] "edited" = none → r.edited = .bool false) ∧
       (dlookup [("id", JVal.str "x")] "is_submitter" = none →
          r.is_submitter = .bool false) ∧
       (dlookup [("id", JVal.str "x")] "stickied" = none → r.stickied = .bool false)) ∧
    extract_comments "p1" (JVal.obj [("id", JVal.str "c1"), ("body", JVal.str "hi"),
        ("replies", JVal.obj [("data", JVal.obj [("children", JVal.arr
           [JVal.obj [("kind", JVal.str "t1"),
              ("data", JVal.obj [("id", JVal.str "c2"), ("body", JVal.str "yo")])]])])])])
        JVal.null 0
      = (extract_children "p1"
           [JVal.obj [("kind", JVal.str "t1"),
              ("data", JVal.obj [("id", JVal.str "c2"), ("body", JVal.str "yo")])]]
           (dget [("id", JVal.str "c1"), ("body", JVal.str "hi"),
              ("replies", JVal.obj [("data", JVal.obj [("children", JVal.arr
                 [JVal.obj [("kind", JVal.str "t1"),
                    ("data", JVal.obj [("id", JVal.str "c2"), ("body", JVal.str "yo")])]])])])]
              "id" JVal.null) (0 + 1)).map
          (fun rest => mkComment "p1"
             [("id", JVal.str "c1"), ("body", JVal.str "hi"),
              ("replies", JVal.obj [("data", JVal.obj [("children", JVal.arr
                 [JVal.obj [("kind", JVal.str "t1"),
                    ("data", JVal.obj [("id", JVal.str "c2"), ("body", JVal.str "yo")])]])])])]
             JVal.null 0 :: rest) :=
  ⟨C2_record_construction.1 "p" [("id", JVal.str "x")] JVal.null 0
      [mkComment "p" [("id", JVal.str "x")] JVal.null 0]
      (by rw [← extract_comments_fuel 50 "p" (JVal.obj [("id", JVal.str "x")]) JVal.null 0
             (by simp only [jsize, jsizeFields]; omega)]
          rfl),
   C2_record_construction.2.1 "p1" _ _ _ _ JVal.null 0 rfl rfl rfl⟩

/-- Concrete run of `fetch_comments` on the listing with a malformed
top-level entry: `comment["kind"]` on the integer raises `TypeError`,
which the outer handler turns into a `ValueError`. -/
theorem fetch_comments_badTop :
    fetch_comments "p1" badTopResp
      = .valueError "Error processing comment data: object is not subscriptable" := by
  simp [fetch_comments, fetch_comments_try, process_top, badTopResp, raiseForStatus,
    pySubscript, pyIter, List.getD, dlookup]

/-- Counterexample to C3 as stated: a malformed (non-dict) entry of the
top-level comment listing is not skipped; `fetch_comments` fails with a
ValidationError instead of returning the record-free success the claim
predicts. -/
theorem C3_counterexample :
    (fetch_comments "p1" badTopResp).isValidationError = true ∧
    ¬fetch_comments "p1" badTopResp = .ok [] := by
  rw [fetch_comments_badTop]
  exact ⟨rfl, by simp⟩

/-- C3 (amended): a malformed comment node handed to the recursive
extractor (a node that is not a structured record) contributes no records
and is skipped without raising; this does not extend to entries of the
top-level comment listing, where a malformed entry makes `fetch_comments`
fail with a ValidationError. -/
theorem C3_amended_malformed_nodes :
    (∀ post_id cd parent_id level, cd.isObj = false →
       extract_comments post_id cd parent_id level = .ok []) ∧
    (fetch_comments "p1" badTopResp).isValidationError = true := by
  constructor
  · exact fun post_id cd parent_id level h =>
      extract_comments_nonobj post_id cd parent_id level h
  · rw [fetch_comments_badTop]; rfl

/-- Witness for the amended C3: a numeric node is skipped with no
records. -/
theorem C3_witness :
    extract_comments "zz" (JVal.num 7) JVal.null 0 = .ok [] :=
  C3_amended_malformed_nodes.1 "zz" (JVal.num 7) JVal.null 0 rfl

/-- Counterexample to C4 as stated: with limit 1 the provider response
carrying two children makes `fetch_posts` return two posts — the code
never truncates to the requested limit. -/
theorem C4_counterexample :
    fetch_posts "a" 1 .hot twoPostsResp
      = .ok [JVal.obj [("id", JVal.str "pA")], JVal.obj [("id", JVal.str "pB")]] ∧
    ¬([JVal.obj [("id", JVal.str "pA")], JVal.obj [("id", JVal.str "pB")]].length ≤ 1) :=
  ⟨fetch_posts_twoPosts 1 (by omega) (by omega), by simp⟩

/-- C4 (amended): `fetch_posts` returns at most one post per child of the
provider response, so its length is bounded by the number of children;
the claimed bound `length ≤ limit` holds exactly when the provider
honours the requested limit by sending at most `limit` children. -/
theorem C4_amended_length_bound (sub : String) (lim : Int) (tl : RedditTimeline)
    (resp : HttpResp) (bf df : List (String × JVal)) (xs posts : List JVal)
    (hb : resp.body = .obj bf) (hd : dlookup bf "data" = some (.obj df))
    (hc : dlookup df "children" = some (.arr xs))
    (h : fetch_posts sub lim tl resp = .ok posts) :
    posts.length ≤ xs.length ∧ ((xs.length : Int) ≤ lim → (posts.length : Int) ≤ lim) := by
  have htry := fetch_posts_ok_inv sub lim tl resp posts h
  by_cases hcond : 400 ≤ resp.status ∧ resp.status < 600
  · exfalso
    simp only [fetch_posts_try, raiseForStatus, if_pos hcond] at htry
    exact Except.noConfusion htry
  · rw [fetch_posts_try_shape resp bf df xs hcond hb hd hc] at htry
    have hlen := processPosts_length xs posts htry
    refine ⟨hlen, fun hle => ?_⟩
    omega

/-- Witness for the amended C4 at the two-children response with
limit 100. -/
theorem C4_amended_witness :
    ([JVal.obj [("id", JVal.str "pA")], JVal.obj [("id", JVal.str "pB")]] : List JVal).length
        ≤ ([JVal.obj [("data", JVal.obj [("id", JVal.str "pA")])],
            JVal.obj [("data", JVal.obj [("id", JVal.str "pB")])]] : List JVal).length ∧
    ((([JVal.obj [("data", JVal.obj [("id", JVal.str "pA")])],
        JVal.obj [("data", JVal.obj [("id", JVal.str "pB")])]] : List JVal).length : Int) ≤ 100 →
      (([JVal.obj [("id", JVal.str "pA")], JVal.obj [("id", JVal.str "pB")]] : List JVal).length : Int) ≤ 100) :=
  C4_amended_length_bound "a" 100 .hot twoPostsResp _ _ _ _ rfl rfl rfl
    (fetch_posts_twoPosts 100 (by omega) (by omega))

/-- C5: `fetch_posts` fails with a ValidationError for limit 0, limit
101, and an empty subreddit, and in each case it issues no HTTP request
(the request counter is 0: validation precedes the single GET). -/
theorem C5_validation_before_network :
    (∀ s tl resp, (fetch_posts s 0 tl resp).isValidationError = true ∧
       fetch_posts_requests s 0 = 0) ∧
    (∀ s tl resp, (fetch_posts s 101 tl resp).isValidationError = true ∧
       fetch_posts_requests s 101 = 0) ∧
    (∀ lim tl resp,
       fetch_posts "" lim tl resp = .valueError "Subreddit name must be a non-empty string" ∧
       fetch_posts_requests "" lim = 0) := by
  refine ⟨?_, ?_, ?_⟩
  · intro s tl resp
    constructor
    · by_cases hs : s = "" <;>
        simp [fetch_posts, hs, Outcome.isValidationError]
    · by_cases hs : s = "" <;> simp [fetch_posts_requests, hs]
  · intro s tl resp
    constructor
    · by_cases hs : s = "" <;>
        simp [fetch_posts, hs, Outcome.isValidationError]
    · by_cases hs : s = "" <;> simp [fetch_posts_requests, hs]
  · intro lim tl resp
    exact ⟨by simp [fetch_posts], by simp [fetch_posts_requests]⟩

/-- C6: `get_access_token` fails with the ProtocolError-class
`ValueError` carrying "Access token not found in response" when the
parsed body is an object without an `access_token` field; it fails with
the TransportError-class `RequestException` on an HTTP failure status
such as 401; and on success it returns the `access_token` string. -/
theorem C6_token_error_paths :
    (∀ resp fs, resp.status < 400 → resp.body = .obj fs →
       dlookup fs "access_token" = none →
       get_access_token resp
         = .valueError "Invalid response from Reddit API: Access token not found in response") ∧
    (∀ resp, 400 ≤ resp.status → resp.status < 600 →
       (get_access_token resp).isTransportError = true) ∧
    (∀ resp fs t, resp.status < 400 → resp.body = .obj fs →
       dlookup fs "access_token" = some (JVal.str t) →
       get_access_token resp = .ok (JVal.str t)) := by
  refine ⟨?_, ?_, ?_⟩
  · intro resp fs hst hb hd
    have hcond : ¬(400 ≤ resp.status ∧ resp.status < 600) := by omega
    simp [get_access_token, get_access_token_try, raiseForStatus, hcond, hb, pyContains,
      dlookup_none_any hd]
  · intro resp h1 h2
    have hcond : 400 ≤ resp.status ∧ resp.status < 600 := ⟨h1, h2⟩
    simp [get_access_token, get_access_token_try, raiseForStatus, hcond,
      Outcome.isTransportError]
  · intro resp fs t hst hb hd
    have hcond : ¬(400 ≤ resp.status ∧ resp.status < 600) := by omega
    simp [get_access_token, get_access_token_try, raiseForStatus, hcond, hb, pyContains,
      dlookup_any hd, pySubscript, hd]

/-- Witness for C6 at three concrete responses. -/
theorem C6_witness :
    get_access_token ⟨200, .obj [("x", JVal.num 1)]⟩
      = .valueError "Invalid response from Reddit API: Access token not found in response" ∧
    (get_access_token ⟨401, .obj []⟩).isTransportError = true ∧
    get_access_token ⟨200, .obj [("access_token", JVal.str "tok")]⟩ = .ok (JVal.str "tok") :=
  ⟨C6_token_error_paths.1 ⟨200, .obj [("x", JVal.num 1)]⟩ [("x", JVal.num 1)]
      (by decide) rfl rfl,
   C6_token_error_paths.2.1 ⟨401, .obj []⟩ (by decide) (by decide),
   C6_token_error_paths.2.2 ⟨200, .obj [("access_token", JVal.str "tok")]⟩
      [("access_token", JVal.str "tok")] "tok" (by decide) rfl rfl⟩

/-- C7: on a well-shaped success response `fetch_posts` returns exactly
each child's inner `data` payload in provider order, omitting children
without that payload, with no deduplication and no sorting; absence of
the top-level `data` object or of `children` inside it fails with a
ValidationError in the "Error processing response data" category. -/
theorem C7_children_passthrough :
    (∀ sub lim tl resp bf df xs, ¬sub = "" → 1 ≤ lim → lim ≤ 100 →
       resp.status < 400 → resp.body = .obj bf →
       dlookup bf "data" = some (.obj df) →
       dlookup df "children" = some (.arr xs) →
       (∀ x, x ∈ xs → x.isObj = true) →
       fetch_posts sub lim tl resp = .ok (xs.filterMap childData)) ∧
    (∀ sub lim tl resp bf, ¬sub = "" → 1 ≤ lim → lim ≤ 100 →
       resp.status < 400 → resp.body = .obj bf → dlookup bf "data" = none →
       fetch_posts sub lim tl resp
         = .valueError "Error processing response data: \x27Invalid API response structure\x27") ∧
    (∀ sub lim tl resp bf df, ¬sub = "" → 1 ≤ lim → lim ≤ 100 →
       resp.status < 400 → resp.body = .obj bf →
       dlookup bf "data" = some (.obj df) → dlookup df "children" = none →
       fetch_posts sub lim tl resp
         = .valueError "Error processing response data: \x27Invalid API response structure\x27") := by
  refine ⟨?_, ?_, ?_⟩
  · intro sub lim tl resp bf df xs hs h1 h2 hst hb hd hc hobj
    have hl : ¬(lim < 1 ∨ lim > 100) := by omega
    have hcond : ¬(400 ≤ resp.status ∧ resp.status < 600) := by omega
    simp only [fetch_posts, if_neg hs, if_neg hl,
      fetch_posts_try_shape resp bf df xs hcond hb hd hc, processPosts_obj xs hobj]
  · intro sub lim tl resp bf hs h1 h2 hst hb hd
    have hl : ¬(lim < 1 ∨ lim > 100) := by omega
    have hcond : ¬(400 ≤ resp.status ∧ resp.status < 600) := by omega
    simp [fetch_posts, if_neg hs, if_neg hl,
      fetch_posts_try_noData resp bf hcond hb hd, pyStrExc]
  · intro sub lim tl resp bf df hs h1 h2 hst hb hd hc
    have hl : ¬(lim < 1 ∨ lim > 100) := by omega
    have hcond : ¬(400 ≤ resp.status ∧ resp.status < 600) := by omega
    simp [fetch_posts, if_neg hs, if_neg hl,
      fetch_posts_try_noChildren resp bf df hcond hb hd hc, pyStrExc]

/-- Witness for C7 at concrete responses for the three paths. -/
theorem C7_witness :
    fetch_posts "a" 5 .hot twoPostsResp
      = .ok (([JVal.obj [("data", JVal.obj [("id", JVal.str "pA")])],
               JVal.obj [("data", JVal.obj [("id", JVal.str "pB")])]] : List JVal).filterMap
               childData) ∧
    fetch_posts "a" 5 .hot ⟨200, .obj []⟩
      = .valueError "Error processing response data: \x27Invalid API response structure\x27" ∧
    fetch_posts "a" 5 .hot ⟨200, .obj [("data", JVal.obj [])]⟩
      = .valueError "Error processing response data: \x27Invalid API response structure\x27" :=
  ⟨C7_children_passthrough.1 "a" 5 .hot twoPostsResp
      [("data", JVal.obj [("children", JVal.arr
         [JVal.obj [("data", JVal.obj [("id", JVal.str "pA")])],
          JVal.obj [("data", JVal.obj [("id", JVal.str "pB")])]])])]
      [("children", JVal.arr
         [JVal.obj [("data", JVal.obj [("id", JVal.str "pA")])],
          JVal.obj [("data", JVal.obj [("id", JVal.str "pB")])]])]
      [JVal.obj [("data", JVal.obj [("id", JVal.str "pA")])],
       JVal.obj [("data", JVal.obj [("id", JVal.str "pB")])]]
      (by decide) (by decide) (by decide) (by decide) rfl rfl rfl (by decide),
   C7_children_passthrough.2.1 "a" 5 .hot ⟨200, .obj []⟩ [] (by decide) (by decide)
      (by decide) (by decide) rfl rfl,
   C7_children_passthrough.2.2 "a" 5 .hot ⟨200, .obj [("data", JVal.obj [])]⟩
      [("data", JVal.obj [])] [] (by decide) (by decide) (by decide) (by decide)
      rfl rfl rfl⟩

/-- C8: a reply entry whose kind tag is not the comment kind contributes
zero records (the loop continues on the remaining entries unchanged), and
`fetch_comments` never issues more than its single GET — in particular no
follow-up request for such entries. -/
theorem C8_non_t1_reply_skipped :
    (∀ post_id cf rest parent_id level,
       (dget cf "kind" JVal.null).eqStr "t1" = false →
       extract_children post_id (JVal.obj cf :: rest) parent_id level
         = extract_children post_id rest parent_id level) ∧
    ∀ post_id, fetch_comments_requests post_id ≤ 1 := by
  constructor
  · intro post_id cf rest parent_id level hk
    exact extract_children_skip post_id cf rest parent_id level hk
  · intro post_id
    by_cases h : post_id = "" <;> simp [fetch_comments_requests, h]

/-- Witness for C8: a `"more"` stub contributes nothing, and the request
count stays at one. -/
theorem C8_witness :
    extract_children "p" [JVal.obj [("kind", JVal.str "more")]] (JVal.str "c1") 1
      = extract_children "p" [] (JVal.str "c1") 1 ∧
    fetch_comments_requests "abc" ≤ 1 :=
  ⟨C8_non_t1_reply_skipped.1 "p" [("kind", JVal.str "more")] [] (JVal.str "c1") 1 rfl,
   C8_non_t1_reply_skipped.2 "abc"⟩

/-- C9: `fetch_comments` is deterministic — two runs on the same post id
against an identical fixed server response return identical output. -/
theorem C9_deterministic (p1 p2 : String) (r1 r2 : HttpResp)
    (hp : p1 = p2) (hr : r1 = r2) :
    fetch_comments p1 r1 = fetch_comments p2 r2 := by
  subst hp
  subst hr
  rfl

/-- Witness for C9 at the nested example response. -/
theorem C9_witness : fetch_comments "p1" exResp = fetch_comments "p1" exResp :=
  C9_deterministic "p1" "p1" exResp exResp rfl rfl

/-- C10: a comment node lacking an `"id"` field still yields a record
with `comment_id` null, and its direct reply is emitted with
`parent_comment_id` null despite having level 1, so a null parent does
not imply level 0. -/
theorem C10_missing_id_null_parent :
    fetch_comments "p9" noIdResp = .ok [noIdRec1, noIdRec2] ∧
    noIdRec1.comment_id = JVal.null ∧
    noIdRec2.parent_comment_id = JVal.null ∧
    noIdRec2.level = 1 ∧ ¬noIdRec2.level = 0 :=
  ⟨fetch_comments_noIdResp, rfl, rfl, rfl, by simp [noIdRec2]⟩
